import Mathlib

/-
Verification development for the CipherCourt data-audit framework
(ciphercourt package: connectors/base.py, connectors/local_csv_odds.py,
connectors/local_csv_match_results.py, audit.py, cli.py).

The Python code is shallowly embedded: CSV rows become association lists of
string fields, `AuditStatus` becomes a four-constructor inductive type, each
check method becomes a pure Lean function over the connector's loaded data,
and timestamps are parsed by a model of `datetime.fromisoformat` (after the
code's `.replace('Z', '+00:00')`), restricted to whole-second precision,
which is the precision class this repository's data and checks exercise.
A parsed timestamp keeps Python's naive/aware distinction: a string without
a UTC offset yields a naive datetime, and comparing or subtracting a naive
and an aware datetime raises `TypeError` — which the connectors' `except
ValueError` handlers do not catch, so checks performing such a comparison
are embedded as `Except`-returning functions whose error value models the
uncaught `TypeError` escaping the method.
-/

namespace CipherCourt

/-- Embedding of `AuditStatus` (connectors/base.py): the four string-valued
audit statuses "pass", "fail", "warning", "not_available". -/
inductive Status where
  | pass
  | fail
  | warning
  | not_available
deriving DecidableEq, Repr, Fintype

/-- Python truthiness of an optional string value (`if value:`): `None` and
the empty string are falsy. -/
def truthy : Option String → Bool
  | none => false
  | some s => !(s == "")

/-- A loaded CSV row (`csv.DictReader` output): field name to string value,
as an association list. -/
abbrev Row := List (String × String)

/-- Embedding of `row.get(key)`: `none` when the column is absent. -/
def rowGet (row : Row) (key : String) : Option String :=
  (row.find? (fun p => p.1 == key)).map (fun p => p.2)

/-- Embedding of `key in row`. -/
def rowHas (row : Row) (key : String) : Bool :=
  row.any (fun p => p.1 == key)

/-- Rendering of `f"{match_id}"` where `match_id = row.get("match_id")`:
Python formats `None` as the string "None". -/
def midStr (row : Row) : String :=
  match rowGet row "match_id" with
  | none => "None"
  | some s => s

/-! ### Timestamp parsing

Model of `datetime.fromisoformat(value.replace('Z', '+00:00'))` on the
whole-second subset of ISO-8601 used by this repository:
`YYYY-MM-DD[<sep>HH[:MM[:SS]][±HH:MM]]`. Strings outside this subset
(fractional seconds, offsets with a seconds component) are treated as
unparsable, i.e. as raising `ValueError`. Aware datetimes are mapped to
UTC epoch seconds; `ValueError` becomes `none`. -/

/-- Value of a decimal digit character, `none` for a non-digit. -/
def digitVal : Char → Option Nat :=
  fun c => if '0' ≤ c ∧ c ≤ '9' then some (c.toNat - '0'.toNat) else none

/-- Two decimal digits as a number. -/
def dig2 (a b : Char) : Option Nat := do
  let x ← digitVal a
  let y ← digitVal b
  some (10 * x + y)

/-- Four decimal digits as a number. -/
def dig4 (a b c d : Char) : Option Nat := do
  let x ← dig2 a b
  let y ← dig2 c d
  some (100 * x + y)

/-- Leap-year rule of the proleptic Gregorian calendar, as used by
`datetime.fromisoformat`'s date validation. -/
def isLeap (y : Nat) : Bool :=
  y % 4 == 0 && (y % 100 != 0 || y % 400 == 0)

/-- Length of a month, for date validation. -/
def daysInMonth (y m : Nat) : Nat :=
  if m == 2 then (if isLeap y then 29 else 28)
  else if m == 4 || m == 6 || m == 9 || m == 11 then 30
  else 31

/-- Rata-die style day number of a civil date (days since 0000-03-01 of the
proleptic Gregorian calendar); 1970-01-01 maps to 719468. -/
def rataDie (y m d : Nat) : Nat :=
  let y' := if m ≤ 2 then y - 1 else y
  let era := y' / 400
  let yoe := y' % 400
  let mp := if 3 ≤ m then m - 3 else m + 9
  let doy := (153 * mp + 2) / 5 + (d - 1)
  let doe := yoe * 365 + yoe / 4 - yoe / 100 + doy
  era * 146097 + doe

/-- Naive epoch seconds of a date-time, ignoring any UTC offset. -/
def naiveEpoch (y m d h mi s : Nat) : Int :=
  ((rataDie y m d : Int) - 719468) * 86400 + (h * 3600 + mi * 60 + s : Nat)

/-- A parsed `datetime`: its field values as naive epoch seconds, plus its
`tzinfo` as an optional UTC offset in seconds — `none` is a naive datetime
(no offset in the string), `some off` an aware one. -/
structure PyDatetime where
  naive : Int
  off : Option Int
deriving DecidableEq, Repr

/-- Parse a UTC offset suffix `±HH:MM`. The empty list means no offset, i.e.
a naive datetime (`tzinfo=None`); the outer `none` models `ValueError`. -/
def parseOffset : List Char → Option (Option Int)
  | [] => some none
  | sign :: h1 :: h2 :: ':' :: m1 :: m2 :: [] => do
      let sgn ← match sign with
        | '+' => some (1 : Int)
        | '-' => some (-1 : Int)
        | _ => none
      let oh ← dig2 h1 h2
      let om ← dig2 m1 m2
      if oh ≤ 23 ∧ om ≤ 59 then some (some (sgn * (oh * 3600 + om * 60))) else none
  | _ => none

/-- Parse the time-of-day part `HH[:MM[:SS]]` followed by an optional offset.
Returns `(hour, minute, second, optional offset seconds)`. -/
def parseTime : List Char → Option (Nat × Nat × Nat × Option Int)
  | h1 :: h2 :: rest => do
      let h ← dig2 h1 h2
      if h ≤ 23 then
        match rest with
        | ':' :: m1 :: m2 :: rest2 => do
            let mi ← dig2 m1 m2
            if mi ≤ 59 then
              match rest2 with
              | ':' :: s1 :: s2 :: rest3 => do
                  let s ← dig2 s1 s2
                  if s ≤ 59 then do
                    let off ← parseOffset rest3
                    some (h, mi, s, off)
                  else none
              | _ => do
                  let off ← parseOffset rest2
                  some (h, mi, 0, off)
            else none
        | _ => do
            let off ← parseOffset rest
            some (h, 0, 0, off)
      else none
  | _ => none

/-- Embedding of `value.replace('Z', '+00:00')` at the character level. -/
def zReplace (cs : List Char) : List Char :=
  (cs.map (fun c => if c == 'Z' then "+00:00".data else [c])).flatten

/-- Model of `datetime.fromisoformat(value.replace('Z', '+00:00'))`:
`none` models `ValueError`; a date-only or offset-less string yields a
naive datetime. -/
def pyParseDt (s : String) : Option PyDatetime :=
  match zReplace s.data with
  | y1 :: y2 :: y3 :: y4 :: '-' :: m1 :: m2 :: '-' :: d1 :: d2 :: rest => do
      let y ← dig4 y1 y2 y3 y4
      let mo ← dig2 m1 m2
      let d ← dig2 d1 d2
      if 1 ≤ y ∧ 1 ≤ mo ∧ mo ≤ 12 ∧ 1 ≤ d ∧ d ≤ daysInMonth y mo then
        match rest with
        | [] => some { naive := naiveEpoch y mo d 0 0 0, off := none }
        | _sep :: t => do
            let (h, mi, s, off) ← parseTime t
            some { naive := naiveEpoch y mo d h mi s, off := off }
      else none
  | _ => none

/-- Python comparison/subtraction keys of two parsed datetimes: the naive
field values when both are naive, the UTC instants when both are aware;
`none` models the `TypeError` raised by comparing or subtracting a naive
and an aware datetime. -/
def pyKeys (a b : PyDatetime) : Option (Int × Int) :=
  match a.off, b.off with
  | none, none => some (a.naive, b.naive)
  | some oa, some ob => some (a.naive - oa, b.naive - ob)
  | _, _ => none

/-- Model of the parse followed by `.replace(tzinfo=None)` (used in
`local_csv_match_results.detect_leakage`): the offset is dropped without
conversion, leaving the naive field values. -/
def pyParseTsNaive (s : String) : Option Int :=
  (pyParseDt s).map PyDatetime.naive

/-- Outcome of one guarded (`try`-wrapped) block of a loop body: a normal
result, a `ValueError` (caught by the surrounding `except ValueError`), or
a `TypeError` from a naive/aware comparison (uncaught — it escapes the
whole method). -/
inductive BlockOut (α : Type) where
  | ok : α → BlockOut α
  | valueError : BlockOut α
  | typeError : BlockOut α
deriving DecidableEq, Repr

/-- Decidable equality for `Except`, so that concrete check results (normal
or raising) can be compared by `decide`. -/
instance {ε α : Type} [DecidableEq ε] [DecidableEq α] : DecidableEq (Except ε α) := fun a b =>
  match a, b with
  | Except.ok x, Except.ok y => decidable_of_iff (x = y) (by simp)
  | Except.error x, Except.error y => decidable_of_iff (x = y) (by simp)
  | Except.ok _, Except.error _ => isFalse (by simp)
  | Except.error _, Except.ok _ => isFalse (by simp)

/-! ### connectors/base.py : status rollup of `run_full_audit` -/

/-- Embedding of the overall-status reduction at the end of
`DataConnector.run_full_audit` (base.py lines 114-129): the four check
statuses are gathered into a list and reduced by the if/elif chain
`FAIL ∈ → FAIL; WARNING ∈ → WARNING; NOT_AVAILABLE ∈ → NOT_AVAILABLE;
else PASS`. -/
def overall_status (availability data_quality timestamps leakage_check : Status) : Status :=
  let statuses := [availability, data_quality, timestamps, leakage_check]
  if Status.fail ∈ statuses then Status.fail
  else if Status.warning ∈ statuses then Status.warning
  else if Status.not_available ∈ statuses then Status.not_available
  else Status.pass

/-- Severity rank of a status under the spec's fixed precedence
`FAIL > WARNING > NOT_AVAILABLE > PASS`. Written from the spec (section 4.4)
for comparison with `overall_status`. -/
def sev : Status → Nat
  | Status.pass => 0
  | Status.not_available => 1
  | Status.warning => 2
  | Status.fail => 3

/-- Maximum of two statuses under the spec's precedence order. Written from
the spec for comparison with `overall_status`. -/
def statusMax (x y : Status) : Status :=
  if sev x ≤ sev y then y else x

/-! ### connectors/local_csv_odds.py : LocalCSVOddsConnector -/

namespace OddsCSV

/-- A violation entry appended to `post_match_odds` in
`LocalCSVOddsConnector.detect_leakage`: record identifier, the two compared
timestamps, the snapshot timestamp, and the delay
`(avail_dt - start_dt).total_seconds()` in seconds. -/
structure Violation where
  match_id : Option String
  available_at : String
  match_start_time : String
  snapshot_timestamp : Option String
  delay_seconds : Int
deriving DecidableEq, Repr

/-- An entry appended to `late_snapshots` in `detect_leakage`. -/
structure LateSnapshot where
  match_id : Option String
  snapshot_timestamp : String
  match_start_time : String
deriving DecidableEq, Repr

/-- First half of the loop body of `detect_leakage` (lines 229-241): the
`available_at` / `match_start_time` comparison. A failed parse is a
`ValueError` (caught at the loop body's `except ValueError`); a mixed
naive/aware `>=` comparison is an uncaught `TypeError`; otherwise the
result is the violation appended, if any. -/
def availCheck (row : Row) : BlockOut (Option Violation) :=
  let available_at := rowGet row "available_at"
  let match_start := rowGet row "match_start_time"
  if truthy available_at && truthy match_start then
    match pyParseDt (available_at.getD ""), pyParseDt (match_start.getD "") with
    | some avail_dt, some start_dt =>
        match pyKeys avail_dt start_dt with
        | none => BlockOut.typeError
        | some (ka, ks) =>
            if ks ≤ ka then
              BlockOut.ok (some { match_id := rowGet row "match_id"
                                  available_at := available_at.getD ""
                                  match_start_time := match_start.getD ""
                                  snapshot_timestamp := rowGet row "snapshot_timestamp"
                                  delay_seconds := ka - ks })
            else BlockOut.ok none
    | _, _ => BlockOut.valueError
  else BlockOut.ok none

/-- Second half of the loop body of `detect_leakage` (lines 243-253): the
`snapshot_timestamp` / `match_start_time` comparison. Same `ValueError` /
`TypeError` conventions as `availCheck`. -/
def snapCheck (row : Row) : BlockOut (Option LateSnapshot) :=
  let snapshot_ts := rowGet row "snapshot_timestamp"
  let match_start := rowGet row "match_start_time"
  if truthy snapshot_ts && truthy match_start then
    match pyParseDt (snapshot_ts.getD ""), pyParseDt (match_start.getD "") with
    | some snap_dt, some start_dt =>
        match pyKeys snap_dt start_dt with
        | none => BlockOut.typeError
        | some (ka, ks) =>
            if ks ≤ ka then
              BlockOut.ok (some { match_id := rowGet row "match_id"
                                  snapshot_timestamp := snapshot_ts.getD ""
                                  match_start_time := match_start.getD "" })
            else BlockOut.ok none
    | _, _ => BlockOut.valueError
  else BlockOut.ok none

/-- One full loop iteration of `detect_leakage`: the `try` wraps both
blocks and `except ValueError: pass` catches only `ValueError`. A caught
`ValueError` in the first block skips the second and appends nothing; one
in the second block keeps the first block's (already executed) append; a
`TypeError` in either block escapes the method, modelled as
`Except.error`. -/
def rowLeakage (row : Row) : Except Unit (Option Violation × Option LateSnapshot) :=
  match availCheck row with
  | BlockOut.typeError => Except.error ()
  | BlockOut.valueError => Except.ok (none, none)
  | BlockOut.ok v =>
      match snapCheck row with
      | BlockOut.typeError => Except.error ()
      | BlockOut.valueError => Except.ok (v, none)
      | BlockOut.ok l => Except.ok (v, l)

/-- The `for row in self.data` loop of `detect_leakage`, stopping at the
first row whose body raises an uncaught `TypeError`. -/
def collectLeakage : List Row → Except Unit (List (Option Violation × Option LateSnapshot))
  | [] => Except.ok []
  | row :: rest =>
      match rowLeakage row with
      | Except.error e => Except.error e
      | Except.ok p =>
          match collectLeakage rest with
          | Except.error e => Except.error e
          | Except.ok ps => Except.ok (p :: ps)

/-- Result dictionary of `LocalCSVOddsConnector.detect_leakage`: status,
issues, and the two violation lists stored under
`checks["post_match_odds"]["violations"]` and
`checks["late_snapshots"]` (counts and truncated examples are derived from
these lists in the Python dict and are omitted here). -/
structure LeakageResult where
  status : Status
  issues : List String
  post_match_odds : List Violation
  late_snapshots : List LateSnapshot
deriving DecidableEq, Repr

/-- Embedding of `LocalCSVOddsConnector.detect_leakage` over the loaded
rows (`self.data`); `Except.error` models an uncaught `TypeError` (from a
mixed naive/aware comparison) escaping the method. -/
def detect_leakage (data : List Row) : Except Unit LeakageResult :=
  if data.isEmpty then
    Except.ok
      { status := Status.not_available
        issues := ["No data loaded"]
        post_match_odds := []
        late_snapshots := [] }
  else
    match collectLeakage data with
    | Except.error e => Except.error e
    | Except.ok pairs =>
        let post_match_odds := pairs.filterMap Prod.fst
        let late_snapshots := pairs.filterMap Prod.snd
        let st1 := if post_match_odds.isEmpty then Status.pass else Status.fail
        let is1 :=
          if post_match_odds.isEmpty then []
          else ["CRITICAL LEAKAGE DETECTED: " ++ toString post_match_odds.length ++
                " odds snapshots have available_at >= match_start_time (look-ahead bias)"]
        let st2 := if late_snapshots.isEmpty then st1 else Status.fail
        let is2 :=
          if late_snapshots.isEmpty then is1
          else is1 ++ ["CRITICAL LEAKAGE DETECTED: " ++ toString late_snapshots.length ++
                       " odds snapshots have snapshot_timestamp >= match_start_time"]
        Except.ok
          { status := st2
            issues := is2
            post_match_odds := post_match_odds
            late_snapshots := late_snapshots }

/-- The required CSV columns of the odds connector. -/
def required_fields : List String :=
  ["match_id", "snapshot_timestamp", "player1_odds", "player2_odds",
   "bookmaker", "available_at", "match_start_time"]

/-- The `checks["required_fields"]` entry of `audit_data_quality`. -/
structure RequiredFieldsCheck where
  expected : List String
  missing : List String
  status : String
deriving DecidableEq, Repr

/-- The `checks["completeness"]` entry of the odds `audit_data_quality`
(the float `completeness_rate` is derived from these counts and omitted). -/
structure CompletenessCheck where
  total_snapshots : Nat
  complete_snapshots : Nat
  incomplete_count : Nat
deriving DecidableEq, Repr

/-- The `checks["odds_validity"]` entry of `audit_data_quality`. -/
structure OddsValidityCheck where
  invalid_count : Nat
  examples : List String
deriving DecidableEq, Repr

/-- Result of `LocalCSVOddsConnector.audit_data_quality`; a `none` check
entry means the key was never inserted into the `checks` dict. -/
structure QualityResult where
  status : Status
  issues : List String
  required_fields : Option RequiredFieldsCheck
  completeness : Option CompletenessCheck
  odds_validity : Option OddsValidityCheck
deriving DecidableEq, Repr

/-- Model of Python `float(s)` on plain decimal literals (optional sign,
digits, optional fractional part); other accepted float syntaxes
(exponents, inf/nan, surrounding whitespace) are outside the data domain of
this repository and are treated as `ValueError`. -/
def parsePyFloat (s : String) : Option Rat :=
  let step := fun (sgn : Int) (cs : List Char) =>
    let ip := cs.takeWhile Char.isDigit
    let rest := cs.dropWhile Char.isDigit
    match rest with
    | [] =>
        if ip.isEmpty then none
        else some ((sgn : Rat) * (ip.foldl (fun a c => 10 * a + (c.toNat - 48)) 0 : Nat))
    | '.' :: fp =>
        if fp.all Char.isDigit && !(ip.isEmpty && fp.isEmpty) then
          some ((sgn : Rat) *
            ((ip.foldl (fun a c => 10 * a + (c.toNat - 48)) 0 : Nat) +
             ((fp.foldl (fun a c => 10 * a + (c.toNat - 48)) 0 : Nat) : Rat) / (10 ^ fp.length)))
        else none
    | _ => none
  match s.data with
  | '-' :: t => step (-1) t
  | '+' :: t => step 1 t
  | t => step 1 t

/-- One loop iteration of the odds-validity scan in `audit_data_quality`
(lines 133-144): `float(row.get("player1_odds", 0))` and the player-2
analogue, with the `except (ValueError, TypeError)` arm appending a single
"invalid odds format" entry. The integer default `0` is used when the
column is absent. -/
def oddsRowInvalid (row : Row) : List String :=
  let val := fun (k : String) =>
    match rowGet row k with
    | none => some (0 : Rat)
    | some s => parsePyFloat s
  match val "player1_odds", val "player2_odds" with
  | some p1, some p2 =>
      (if p1 < 1 then [midStr row ++ ": player1_odds < 1.0"] else []) ++
      (if p2 < 1 then [midStr row ++ ": player2_odds < 1.0"] else [])
  | _, _ => [midStr row ++ ": invalid odds format"]

/-- Embedding of `LocalCSVOddsConnector.audit_data_quality` over the loaded
rows. -/
def audit_data_quality (data : List Row) : QualityResult :=
  match data with
  | [] =>
      { status := Status.not_available
        issues := ["No data loaded"]
        required_fields := none
        completeness := none
        odds_validity := none }
  | first_row :: _ =>
      let missing_fields := required_fields.filter (fun f => !rowHas first_row f)
      let rf : RequiredFieldsCheck :=
        { expected := required_fields
          missing := missing_fields
          status := if missing_fields.isEmpty then "pass" else "fail" }
      if !missing_fields.isEmpty then
        { status := Status.fail
          issues := ["Missing required fields: " ++ String.intercalate ", " missing_fields]
          required_fields := some rf
          completeness := none
          odds_validity := none }
      else
        let incomplete_count :=
          (data.filter (fun row => required_fields.any (fun f => !truthy (rowGet row f)))).length
        let comp : CompletenessCheck :=
          { total_snapshots := data.length
            complete_snapshots := data.length - incomplete_count
            incomplete_count := incomplete_count }
        let st1 := if 0 < incomplete_count then Status.warning else Status.pass
        let is1 :=
          if 0 < incomplete_count then
            ["Found " ++ toString incomplete_count ++ " incomplete snapshots"]
          else []
        let invalid_odds := data.flatMap oddsRowInvalid
        let ov : OddsValidityCheck :=
          { invalid_count := invalid_odds.length
            examples := invalid_odds.take 5 }
        let st2 := if invalid_odds.isEmpty then st1 else Status.warning
        let is2 :=
          if invalid_odds.isEmpty then is1
          else is1 ++ ["Found " ++ toString invalid_odds.length ++ " invalid odds values"]
        { status := st2
          issues := is2
          required_fields := some rf
          completeness := some comp
          odds_validity := some ov }

/-- The `checks["timestamp_format"]` entry of a timestamp check. -/
structure TimestampFormatCheck where
  invalid_count : Nat
  examples : List String
deriving DecidableEq, Repr

/-- Result of `LocalCSVOddsConnector.check_timestamps`. -/
structure TimestampsResult where
  status : Status
  issues : List String
  timestamp_format : Option TimestampFormatCheck
deriving DecidableEq, Repr

/-- Embedding of `LocalCSVOddsConnector.check_timestamps`: for each row,
each of the three timestamp columns that is present and non-empty is
parsed, and a parse failure appends one "invalid <field>" entry. -/
def check_timestamps (data : List Row) : TimestampsResult :=
  if data.isEmpty then
    { status := Status.not_available
      issues := ["No data loaded"]
      timestamp_format := none }
  else
    let invalid_timestamps := data.flatMap (fun row =>
      ([("snapshot_timestamp", rowGet row "snapshot_timestamp"),
        ("available_at", rowGet row "available_at"),
        ("match_start_time", rowGet row "match_start_time")]).flatMap (fun fv =>
        if truthy fv.2 && (pyParseDt (fv.2.getD "")).isNone then
          [midStr row ++ ": invalid " ++ fv.1]
        else []))
    { status := if invalid_timestamps.isEmpty then Status.pass else Status.fail
      issues :=
        if invalid_timestamps.isEmpty then []
        else ["Found " ++ toString invalid_timestamps.length ++ " invalid timestamps"]
      timestamp_format := some { invalid_count := invalid_timestamps.length
                                 examples := invalid_timestamps.take 5 } }

end OddsCSV

/-! ### Shared availability check of the two local CSV connectors -/

namespace LocalCSV

/-- State of a local CSV connector after `__init__`/`_load_data`: the
configured `csv_path`, whether `Path(csv_path).exists()`, and the loaded
rows `self.data`. -/
structure ConnectorState where
  csv_path : Option String
  file_exists : Bool
  data : List Row
deriving DecidableEq, Repr

/-- Result of `check_availability`: status, issues, and the
`details["records_loaded"]` entry (set only on the success path; the
`file_size_bytes`, `csv_path` and odds-only `unique_matches` details are
filesystem metadata not bearing on any audited property and are omitted). -/
structure AvailabilityResult where
  status : Status
  issues : List String
  records_loaded : Option Nat
deriving DecidableEq, Repr

/-- Embedding of `check_availability`, identical (up to the omitted details)
in LocalCSVMatchResultsConnector (lines 51-74) and LocalCSVOddsConnector
(lines 50-77): NOT_AVAILABLE when no path is configured or the file does
not exist, otherwise PASS with the record count. -/
def check_availability (st : ConnectorState) : AvailabilityResult :=
  if !truthy st.csv_path then
    { status := Status.not_available
      issues := ["No CSV path configured"]
      records_loaded := none }
  else if !st.file_exists then
    { status := Status.not_available
      issues := ["CSV file not found: " ++ st.csv_path.getD ""]
      records_loaded := none }
  else
    { status := Status.pass
      issues := []
      records_loaded := some st.data.length }

end LocalCSV

/-! ### connectors/local_csv_match_results.py : LocalCSVMatchResultsConnector -/

namespace MatchResultsCSV

/-- The required CSV columns of the match-results connector. -/
def required_fields : List String :=
  ["match_id", "date", "tournament", "circuit",
   "player1", "player2", "score", "winner",
   "match_start_time", "available_at"]

/-- The `checks["completeness"]` entry (float rate omitted, as for odds). -/
structure CompletenessCheck where
  total_records : Nat
  complete_records : Nat
  incomplete_count : Nat
deriving DecidableEq, Repr

/-- The `checks["duplicates"]` entry. -/
structure DuplicatesCheck where
  total_records : Nat
  unique_records : Nat
  duplicate_count : Nat
deriving DecidableEq, Repr

/-- Result of `LocalCSVMatchResultsConnector.audit_data_quality`; `none`
check entries were never inserted into the `checks` dict. The invalid
circuit values scan adds only an issue, no `checks` entry. -/
structure QualityResult where
  status : Status
  issues : List String
  required_fields : Option OddsCSV.RequiredFieldsCheck
  completeness : Option CompletenessCheck
  duplicates : Option DuplicatesCheck
deriving DecidableEq, Repr

/-- Embedding of `LocalCSVMatchResultsConnector.audit_data_quality`
(lines 76-156). Python renders the invalid-circuit issue through
`set(invalid_circuits)` whose element order is an implementation detail;
first-occurrence order is used here. -/
def audit_data_quality (data : List Row) : QualityResult :=
  match data with
  | [] =>
      { status := Status.not_available
        issues := ["No data loaded"]
        required_fields := none
        completeness := none
        duplicates := none }
  | first_row :: _ =>
      let missing_fields := required_fields.filter (fun f => !rowHas first_row f)
      let rf : OddsCSV.RequiredFieldsCheck :=
        { expected := required_fields
          missing := missing_fields
          status := if missing_fields.isEmpty then "pass" else "fail" }
      if !missing_fields.isEmpty then
        { status := Status.fail
          issues := ["Missing required fields: " ++ String.intercalate ", " missing_fields]
          required_fields := some rf
          completeness := none
          duplicates := none }
      else
        let incomplete_count :=
          (data.filter (fun row => required_fields.any (fun f => !truthy (rowGet row f)))).length
        let comp : CompletenessCheck :=
          { total_records := data.length
            complete_records := data.length - incomplete_count
            incomplete_count := incomplete_count }
        let st1 := if 0 < incomplete_count then Status.warning else Status.pass
        let is1 :=
          if 0 < incomplete_count then
            ["Found " ++ toString incomplete_count ++ " incomplete records"]
          else []
        let match_ids := data.map (fun row => rowGet row "match_id")
        let unique_ids := match_ids.eraseDups
        let duplicate_count := match_ids.length - unique_ids.length
        let dup : DuplicatesCheck :=
          { total_records := data.length
            unique_records := unique_ids.length
            duplicate_count := duplicate_count }
        let st2 := if 0 < duplicate_count then Status.warning else st1
        let is2 :=
          if 0 < duplicate_count then
            is1 ++ ["Found " ++ toString duplicate_count ++ " duplicate match IDs"]
          else is1
        let invalid_circuits := data.filterMap (fun row =>
          let circuit := (rowGet row "circuit").getD ""
          if circuit != "" && !(["ATP", "Challenger", "ITF"].contains circuit) then
            some circuit
          else none)
        let st3 := if invalid_circuits.isEmpty then st2 else Status.warning
        let is3 :=
          if invalid_circuits.isEmpty then is2
          else is2 ++ ["Found invalid circuit values: " ++
                       toString invalid_circuits.eraseDups]
        { status := st3
          issues := is3
          required_fields := some rf
          completeness := some comp
          duplicates := some dup }

/-- The `checks["temporal_ordering"]` entry of the match-results
`check_timestamps`. -/
structure TemporalOrderingCheck where
  out_of_order_count : Nat
  examples : List String
deriving DecidableEq, Repr

/-- Result of `LocalCSVMatchResultsConnector.check_timestamps`. -/
structure TimestampsResult where
  status : Status
  issues : List String
  timestamp_format : Option OddsCSV.TimestampFormatCheck
  temporal_ordering : Option TemporalOrderingCheck
deriving DecidableEq, Repr

/-- Format-error entries of one loop iteration of the match-results
`check_timestamps` (lines 179-190): the two fields are guarded by separate
`try` statements, so each failing field appends independently. -/
def rowInvalidEntries (row : Row) : List String :=
  let match_start := rowGet row "match_start_time"
  let available_at := rowGet row "available_at"
  (if truthy match_start && (pyParseDt (match_start.getD "")).isNone then
    [midStr row ++ ": invalid match_start_time"]
  else []) ++
  (if truthy available_at && (pyParseDt (available_at.getD "")).isNone then
    [midStr row ++ ": invalid available_at"]
  else [])

/-- Temporal-ordering entry of one loop iteration (lines 192-200): when both
timestamps are present and parse, `avail_dt > start_dt` (strictly) appends
an out-of-order entry. A `ValueError` in this block is swallowed by its
`except ValueError: pass`, but a `TypeError` from a mixed naive/aware `>`
is uncaught and escapes the method (`Except.error`). -/
def rowOrderCheck (row : Row) : Except Unit (Option String) :=
  let match_start := rowGet row "match_start_time"
  let available_at := rowGet row "available_at"
  if truthy match_start && truthy available_at then
    match pyParseDt (match_start.getD ""), pyParseDt (available_at.getD "") with
    | some start_dt, some avail_dt =>
        match pyKeys avail_dt start_dt with
        | none => Except.error ()
        | some (ka, ks) =>
            if ks < ka then
              Except.ok (some (midStr row ++ ": available_at after match_start_time"))
            else Except.ok none
    | _, _ => Except.ok none
  else Except.ok none

/-- The ordering scan of the `check_timestamps` loop over all rows,
stopping at the first uncaught `TypeError`. -/
def collectOrders : List Row → Except Unit (List (Option String))
  | [] => Except.ok []
  | row :: rest =>
      match rowOrderCheck row with
      | Except.error e => Except.error e
      | Except.ok o =>
          match collectOrders rest with
          | Except.error e => Except.error e
          | Except.ok os => Except.ok (o :: os)

/-- Embedding of `LocalCSVMatchResultsConnector.check_timestamps`
(lines 158-220). Note the status assignments at lines 212-218: the FAIL
set for invalid timestamps is unconditionally overwritten with WARNING when
any out-of-order record exists. `Except.error` models an uncaught
`TypeError` escaping the method from the ordering comparison. -/
def check_timestamps (data : List Row) : Except Unit TimestampsResult :=
  if data.isEmpty then
    Except.ok
      { status := Status.not_available
        issues := ["No data loaded"]
        timestamp_format := none
        temporal_ordering := none }
  else
    match collectOrders data with
    | Except.error e => Except.error e
    | Except.ok orders =>
        let invalid_timestamps := data.flatMap rowInvalidEntries
        let out_of_order := orders.filterMap (fun o => o)
        let st1 := if invalid_timestamps.isEmpty then Status.pass else Status.fail
        let is1 :=
          if invalid_timestamps.isEmpty then []
          else ["Found " ++ toString invalid_timestamps.length ++ " invalid timestamps"]
        let st2 := if out_of_order.isEmpty then st1 else Status.warning
        let is2 :=
          if out_of_order.isEmpty then is1
          else is1 ++ ["Found " ++ toString out_of_order.length ++
                       " records with temporal ordering issues"]
        Except.ok
          { status := st2
            issues := is2
            timestamp_format := some { invalid_count := invalid_timestamps.length
                                       examples := invalid_timestamps.take 5 }
            temporal_ordering := some { out_of_order_count := out_of_order.length
                                        examples := out_of_order.take 5 } }

/-- The `checks["future_dates"]` entry of the match-results
`detect_leakage`; `future_dates` collects the raw `row.get("match_id")`
values. -/
structure FutureDatesCheck where
  future_count : Nat
  examples : List (Option String)
deriving DecidableEq, Repr

/-- Result of `LocalCSVMatchResultsConnector.detect_leakage`. -/
structure LeakageResult where
  status : Status
  issues : List String
  future_dates : Option FutureDatesCheck
deriving DecidableEq, Repr

/-- Embedding of `LocalCSVMatchResultsConnector.detect_leakage`
(lines 222-261), with `datetime.utcnow()` injected as `now` (naive UTC
epoch seconds). The parsed start is compared after `.replace(tzinfo=None)`,
i.e. with its offset dropped, hence `pyParseTsNaive`. -/
def detect_leakage (now : Int) (data : List Row) : LeakageResult :=
  if data.isEmpty then
    { status := Status.not_available
      issues := ["No data loaded"]
      future_dates := none }
  else
    let future_dates := data.filterMap (fun row =>
      let match_start := rowGet row "match_start_time"
      if truthy match_start then
        match pyParseTsNaive (match_start.getD "") with
        | some start_dt => if now < start_dt then some (rowGet row "match_id") else none
        | none => none
      else none)
    { status := if future_dates.isEmpty then Status.pass else Status.fail
      issues :=
        if future_dates.isEmpty then []
        else ["CRITICAL: Found " ++ toString future_dates.length ++ " future-dated matches"]
      future_dates := some { future_count := future_dates.length
                             examples := future_dates.take 5 } }

end MatchResultsCSV

/-! ### audit.py : AuditFramework -/

namespace Audit

/-- The status-and-issues part of one check's result dict, as consumed by
`_generate_summary` (details beyond `status` and `issues` are not read
there). -/
structure CheckRes where
  status : Status
  issues : List String
deriving DecidableEq, Repr

/-- The per-source report produced by `run_full_audit`, as consumed by
`_generate_summary`: the four check results and the overall status (the
`source`/timestamp/duration entries are not read by the summary). All four
check keys and `overall_status` are always present in a `run_full_audit`
report, so the `in result` / `.get` guards of `_generate_summary` always
succeed. -/
structure SourceResult where
  availability : CheckRes
  data_quality : CheckRes
  timestamps : CheckRes
  leakage_check : CheckRes
  overall_status : Status
deriving DecidableEq, Repr

/-- The fixed check-type iteration list
`["availability", "data_quality", "timestamps", "leakage_check"]` of
`_generate_summary`, paired with the corresponding report accessor. -/
def checkTypes : List (String × (SourceResult → CheckRes)) :=
  [("availability", SourceResult.availability),
   ("data_quality", SourceResult.data_quality),
   ("timestamps", SourceResult.timestamps),
   ("leakage_check", SourceResult.leakage_check)]

/-- The `summary` dict built by `_generate_summary`. -/
structure Summary where
  total_connectors : Nat
  passed : Nat
  failed : Nat
  warnings : Nat
  not_available : Nat
  critical_issues : List String
  all_issues : List String
deriving DecidableEq, Repr

/-- The critical-issue entries contributed by one failing source
(audit.py lines 119-123): every issue of every check, prefixed with the
source name. -/
def criticalOf (source : String) (result : SourceResult) : List String :=
  checkTypes.flatMap (fun ct =>
    ((ct.2 result).issues).map (fun issue => source ++ ": " ++ issue))

/-- The all-issue entries contributed by one source (audit.py lines
130-134): every issue of every check, prefixed with
`source.check_type`. -/
def allOf (source : String) (result : SourceResult) : List String :=
  checkTypes.flatMap (fun ct =>
    ((ct.2 result).issues).map (fun issue => source ++ "." ++ ct.1 ++ ": " ++ issue))

/-- One iteration of the `for source, result in audit_results.items()` loop
of `_generate_summary` (lines 111-134). -/
def summaryStep (acc : Summary) (entry : String × SourceResult) : Summary :=
  let source := entry.1
  let result := entry.2
  let acc' :=
    match result.overall_status with
    | Status.pass => { acc with passed := acc.passed + 1 }
    | Status.fail =>
        { acc with
          failed := acc.failed + 1
          critical_issues := acc.critical_issues ++ criticalOf source result }
    | Status.warning => { acc with warnings := acc.warnings + 1 }
    | Status.not_available => { acc with not_available := acc.not_available + 1 }
  { acc' with all_issues := acc'.all_issues ++ allOf source result }

/-- Embedding of `AuditFramework._generate_summary` over the (insertion
ordered) entries of the `audit_results` dict. -/
def generate_summary (audit_results : List (String × SourceResult)) : Summary :=
  audit_results.foldl summaryStep
    { total_connectors := audit_results.length
      passed := 0
      failed := 0
      warnings := 0
      not_available := 0
      critical_issues := []
      all_issues := [] }

/-- A registered connector as seen by `run_audit`: its `get_source_name()`
and the report its `run_full_audit()` produces. -/
structure Connector where
  source_name : String
  full_audit : SourceResult
deriving DecidableEq, Repr

/-- The skip test of the `run_audit` loop (audit.py line 85):
`if connectors and source_name not in connectors: continue`. An empty
selection list is falsy in Python, so it skips nothing. -/
def skipConn (selected : Option (List String)) (name : String) : Bool :=
  match selected with
  | none => false
  | some sel => !sel.isEmpty && !(sel.contains name)

/-- One iteration of the `for connector in self.connectors` loop of
`run_audit` (lines 81-89), accumulating `connectors_audited` and
`results`. -/
def runStep (selected : Option (List String))
    (acc : List String × List (String × SourceResult)) (c : Connector) :
    List String × List (String × SourceResult) :=
  if skipConn selected c.source_name then acc
  else (acc.1 ++ [c.source_name], acc.2 ++ [(c.source_name, c.full_audit)])

/-- The report of `run_audit` (timestamps and durations omitted):
`connectors_audited`, the `results` mapping in insertion order, and the
generated `summary`. -/
structure RunResult where
  connectors_audited : List String
  results : List (String × SourceResult)
  summary : Summary
deriving DecidableEq, Repr

/-- Embedding of `AuditFramework.run_audit`. -/
def run_audit (connectors : List Connector) (selected : Option (List String)) : RunResult :=
  let pair := connectors.foldl (runStep selected) ([], [])
  { connectors_audited := pair.1
    results := pair.2
    summary := generate_summary pair.2 }

end Audit

/-! ### Concrete audit inputs used by the theorems below -/

/-- Record R1 of the end-to-end scenario: data available two hours before
the match starts. -/
def R1row : Row :=
  [("match_id", "R1"), ("available_at", "2024-01-01T10:00:00Z"),
   ("match_start_time", "2024-01-01T12:00:00Z")]

/-- Record R2 of the end-to-end scenario: data available one hour after
the match starts. -/
def R2row : Row :=
  [("match_id", "R2"), ("available_at", "2024-01-01T13:00:00Z"),
   ("match_start_time", "2024-01-01T12:00:00Z")]

/-- A record with a malformed availability timestamp. -/
def RbadRow : Row :=
  [("match_id", "R3"), ("available_at", "not-a-timestamp"),
   ("match_start_time", "2024-01-01T12:00:00Z")]

/-- A record pairing a naive (offset-less) `available_at` with an aware
(UTC-suffixed) `match_start_time`: both parse, but Python's `>=` on the
pair raises `TypeError`. -/
def MixedRow : Row :=
  [("match_id", "m0"), ("available_at", "2024-01-01T13:00:00"),
   ("match_start_time", "2024-01-01T12:00:00Z")]

/-- A record whose availability timestamp equals the match start exactly. -/
def BoundaryEqRow : Row :=
  [("match_id", "m1"), ("available_at", "2024-01-01T12:00:00Z"),
   ("match_start_time", "2024-01-01T12:00:00Z")]

/-- A record whose availability timestamp is one second before the match
start. -/
def BoundaryBeforeRow : Row :=
  [("match_id", "m2"), ("available_at", "2024-01-01T11:59:59Z"),
   ("match_start_time", "2024-01-01T12:00:00Z")]

/-- A match-results record with an unparsable `match_start_time`. -/
def InvalidTsRow : Row :=
  [("match_id", "m1"), ("match_start_time", "not-a-date"),
   ("available_at", "2024-01-01T10:00:00Z")]

/-- A match-results record whose `available_at` postdates its
`match_start_time` (an intra-record ordering problem). -/
def OutOfOrderRow : Row :=
  [("match_id", "m2"), ("match_start_time", "2024-01-01T10:00:00Z"),
   ("available_at", "2024-01-01T11:00:00Z")]

/-- A connector state whose CSV file exists but holds zero data rows
(a CSV with only a header line loads as an empty record set). -/
def EmptyFileState : LocalCSV.ConnectorState :=
  { csv_path := some "data.csv", file_exists := true, data := [] }

/-- A connector state with no CSV path configured (and hence no data). -/
def NoPathState : LocalCSV.ConnectorState :=
  { csv_path := none, file_exists := false, data := [] }

/-- A row providing only `match_id`, so that every other required field of
both connectors is missing. -/
def OnlyIdRow : Row := [("match_id", "1")]

/-- A trivial all-pass source report, used to populate sample connectors. -/
def passReport : Audit.SourceResult :=
  { availability := { status := Status.pass, issues := [] }
    data_quality := { status := Status.pass, issues := [] }
    timestamps := { status := Status.pass, issues := [] }
    leakage_check := { status := Status.pass, issues := [] }
    overall_status := Status.pass }

/-- A sample registered connector. -/
def connA : Audit.Connector := { source_name := "match_results", full_audit := passReport }

/-- A second sample registered connector. -/
def connB : Audit.Connector := { source_name := "pre_match_odds", full_audit := passReport }

/-! ## Theorems -/

/-- Claim C2: for every combination of the four per-check statuses, the
overall status computed by the `run_full_audit` rollup equals the maximum
of the four under the total order FAIL > WARNING > NOT_AVAILABLE > PASS,
and exactly one branch of the if/elif precedence chain decides it. -/
theorem rollup_is_precedence_max :
    ∀ a b c d : Status,
      overall_status a b c d = statusMax (statusMax (statusMax a b) c) d
      ∧ ([decide (Status.fail ∈ [a, b, c, d]),
          decide (Status.fail ∉ [a, b, c, d] ∧ Status.warning ∈ [a, b, c, d]),
          decide (Status.fail ∉ [a, b, c, d] ∧ Status.warning ∉ [a, b, c, d] ∧
                  Status.not_available ∈ [a, b, c, d]),
          decide (Status.fail ∉ [a, b, c, d] ∧ Status.warning ∉ [a, b, c, d] ∧
                  Status.not_available ∉ [a, b, c, d])].count true) = 1 := by
  decide

/-- Claim C3: the claim says a record set with both an invalid timestamp
and an ordering problem yields FAIL, but in
`LocalCSVMatchResultsConnector.check_timestamps` the WARNING assignment for
out-of-order records unconditionally overwrites the FAIL set for invalid
timestamps: on one invalid-timestamp record plus one out-of-order record
the check returns WARNING. The single-problem record sets behave as the
claim says (invalid ⇒ FAIL, ordering ⇒ WARNING). -/
theorem timestamps_warning_overwrites_fail :
    MatchResultsCSV.check_timestamps [InvalidTsRow, OutOfOrderRow]
      = Except.ok
          { status := Status.warning
            issues := ["Found 1 invalid timestamps",
                       "Found 1 records with temporal ordering issues"]
            timestamp_format := some { invalid_count := 1
                                       examples := ["m1: invalid match_start_time"] }
            temporal_ordering := some { out_of_order_count := 1
                                        examples := ["m2: available_at after match_start_time"] } }
    ∧ MatchResultsCSV.check_timestamps [InvalidTsRow]
      = Except.ok
          { status := Status.fail
            issues := ["Found 1 invalid timestamps"]
            timestamp_format := some { invalid_count := 1
                                       examples := ["m1: invalid match_start_time"] }
            temporal_ordering := some { out_of_order_count := 0, examples := [] } }
    ∧ MatchResultsCSV.check_timestamps [OutOfOrderRow]
      = Except.ok
          { status := Status.warning
            issues := ["Found 1 records with temporal ordering issues"]
            timestamp_format := some { invalid_count := 0, examples := [] }
            temporal_ordering := some { out_of_order_count := 1
                                        examples := ["m2: available_at after match_start_time"] } } := by
  decide

/-- Claim C4 counterexample: for a connector whose CSV file exists but
holds zero records, the loaded record set is empty yet `check_availability`
returns PASS with an empty issue list, not NOT_AVAILABLE with a non-empty
one as the claim states for all four checks. -/
theorem empty_dataset_availability_cex :
    EmptyFileState.data = []
    ∧ (LocalCSV.check_availability EmptyFileState).status = Status.pass
    ∧ ¬((LocalCSV.check_availability EmptyFileState).status = Status.not_available
        ∧ (LocalCSV.check_availability EmptyFileState).issues ≠ []) := by
  decide

/-- Claim C5: on the two-record input R1/R2 the leakage check does not
raise and reports exactly one violation, R2, with `delay_seconds = 3600`,
no late snapshots, and status FAIL; appending a record with a malformed
timestamp changes nothing (its `ValueError` is caught and the record
silently skipped rather than raising). -/
theorem end_to_end_leakage_scenario :
    OddsCSV.detect_leakage [R1row, R2row]
      = Except.ok
          { status := Status.fail
            issues := ["CRITICAL LEAKAGE DETECTED: 1 odds snapshots have available_at >= match_start_time (look-ahead bias)"]
            post_match_odds := [{ match_id := some "R2"
                                  available_at := "2024-01-01T13:00:00Z"
                                  match_start_time := "2024-01-01T12:00:00Z"
                                  snapshot_timestamp := none
                                  delay_seconds := 3600 }]
            late_snapshots := [] }
    ∧ OddsCSV.detect_leakage [R1row, R2row, RbadRow] = OddsCSV.detect_leakage [R1row, R2row] := by
  decide

/-- Claim C1 counterexample: a record pairing a naive (offset-less)
`available_at` with an aware `match_start_time` has both timestamps
parseable, yet the leakage check neither classifies it nor returns any
status: the naive/aware `>=` raises a `TypeError` that the
`except ValueError` does not catch, so `detect_leakage` raises instead of
producing the claimed FAIL. -/
theorem leakage_boundary_cex :
    truthy (rowGet MixedRow "available_at") = true
    ∧ truthy (rowGet MixedRow "match_start_time") = true
    ∧ (pyParseDt ((rowGet MixedRow "available_at").getD "")).isSome = true
    ∧ (pyParseDt ((rowGet MixedRow "match_start_time").getD "")).isSome = true
    ∧ OddsCSV.detect_leakage [MixedRow] = Except.error () := by
  decide

/-- Claim C1 as amended: for a record whose availability timestamp and
reference time are both parseable and of the same awareness (both carry a
UTC offset or both are offset-less, so that Python's comparison is defined
and yields keys `ka`, `ks`), and which produces no late-snapshot violation
or error, the leakage check returns normally and reports a violation
exactly when `available_at >= match_start_time`; it then has status FAIL,
and status PASS exactly when `available_at` is strictly before the
reference time. A mixed naive/aware pair instead raises an uncaught
`TypeError` (see the counterexample). -/
theorem leakage_boundary (row : Row) (A S : PyDatetime) (ka ks : Int)
    (hav : truthy (rowGet row "available_at") = true)
    (hst : truthy (rowGet row "match_start_time") = true)
    (hpa : pyParseDt ((rowGet row "available_at").getD "") = some A)
    (hps : pyParseDt ((rowGet row "match_start_time").getD "") = some S)
    (hk : pyKeys A S = some (ka, ks))
    (hsc : OddsCSV.snapCheck row = BlockOut.ok none
           ∨ OddsCSV.snapCheck row = BlockOut.valueError) :
    ∃ res, OddsCSV.detect_leakage [row] = Except.ok res
      ∧ (res.status = Status.fail ↔ ks ≤ ka)
      ∧ (res.status = Status.pass ↔ ka < ks)
      ∧ (res.post_match_odds ≠ [] ↔ ks ≤ ka) := by
  by_cases hle : ks ≤ ka
  · have hac : OddsCSV.availCheck row
        = BlockOut.ok (some { match_id := rowGet row "match_id"
                              available_at := (rowGet row "available_at").getD ""
                              match_start_time := (rowGet row "match_start_time").getD ""
                              snapshot_timestamp := rowGet row "snapshot_timestamp"
                              delay_seconds := ka - ks }) := by
      simp [OddsCSV.availCheck, hav, hst, hpa, hps, hk, hle]
    have hrl : OddsCSV.rowLeakage row
        = Except.ok (some { match_id := rowGet row "match_id"
                            available_at := (rowGet row "available_at").getD ""
                            match_start_time := (rowGet row "match_start_time").getD ""
                            snapshot_timestamp := rowGet row "snapshot_timestamp"
                            delay_seconds := ka - ks }, none) := by
      unfold OddsCSV.rowLeakage
      rw [hac]
      rcases hsc with h | h <;> rw [h]
    have hcl : OddsCSV.collectLeakage [row]
        = Except.ok [(some { match_id := rowGet row "match_id"
                             available_at := (rowGet row "available_at").getD ""
                             match_start_time := (rowGet row "match_start_time").getD ""
                             snapshot_timestamp := rowGet row "snapshot_timestamp"
                             delay_seconds := ka - ks }, none)] := by
      simp [OddsCSV.collectLeakage, hrl]
    have hdl : OddsCSV.detect_leakage [row]
        = Except.ok
            { status := Status.fail
              issues := ["CRITICAL LEAKAGE DETECTED: " ++ toString (1 : Nat) ++
                         " odds snapshots have available_at >= match_start_time (look-ahead bias)"]
              post_match_odds := [{ match_id := rowGet row "match_id"
                                    available_at := (rowGet row "available_at").getD ""
                                    match_start_time := (rowGet row "match_start_time").getD ""
                                    snapshot_timestamp := rowGet row "snapshot_timestamp"
                                    delay_seconds := ka - ks }]
              late_snapshots := [] } := by
      simp [OddsCSV.detect_leakage, hcl]
    refine ⟨_, hdl, ?_, ?_, ?_⟩
    · simpa using hle
    · simp
      omega
    · simpa using hle
  · have hac : OddsCSV.availCheck row = BlockOut.ok none := by
      simp [OddsCSV.availCheck, hav, hst, hpa, hps, hk, hle]
    have hrl : OddsCSV.rowLeakage row = Except.ok (none, none) := by
      unfold OddsCSV.rowLeakage
      rw [hac]
      rcases hsc with h | h <;> rw [h]
    have hcl : OddsCSV.collectLeakage [row] = Except.ok [(none, none)] := by
      simp [OddsCSV.collectLeakage, hrl]
    have hdl : OddsCSV.detect_leakage [row]
        = Except.ok
            { status := Status.pass
              issues := []
              post_match_odds := []
              late_snapshots := [] } := by
      simp [OddsCSV.detect_leakage, hcl]
    refine ⟨_, hdl, ?_, ?_, ?_⟩
    · simpa using hle
    · simp
      omega
    · simpa using hle

/-- Witness for C1 (amended): at `available_at == reference_time` exactly
(both aware) the check returns normally with status FAIL, and at
`available_at == reference_time - 1s` it returns normally with status
PASS. -/
theorem leakage_boundary_witness :
    (∃ res, OddsCSV.detect_leakage [BoundaryEqRow] = Except.ok res
       ∧ res.status = Status.fail)
    ∧ (∃ res, OddsCSV.detect_leakage [BoundaryBeforeRow] = Except.ok res
       ∧ res.status = Status.pass) := by
  constructor
  · obtain ⟨res, h1, h2, h3, h4⟩ :=
      leakage_boundary BoundaryEqRow ⟨1704110400, some 0⟩ ⟨1704110400, some 0⟩
        1704110400 1704110400 (by decide) (by decide) (by decide) (by decide)
        (by decide) (Or.inl (by decide))
    exact ⟨res, h1, h2.mpr (by decide)⟩
  · obtain ⟨res, h1, h2, h3, h4⟩ :=
      leakage_boundary BoundaryBeforeRow ⟨1704110399, some 0⟩ ⟨1704110400, some 0⟩
        1704110399 1704110400 (by decide) (by decide) (by decide) (by decide)
        (by decide) (Or.inl (by decide))
    exact ⟨res, h1, h3.mpr (by decide)⟩

/-- Claim C4 as amended: on an empty loaded record set the three
record-level checks (data quality, timestamp validity, leakage) of both
local CSV connectors return NOT_AVAILABLE with a non-empty issue list; the
availability check returns NOT_AVAILABLE with a non-empty issue list when
no CSV path is configured or the file does not exist, but PASS with an
empty issue list when the configured file exists yet holds zero records. -/
theorem empty_dataset_safety (st : LocalCSV.ConnectorState) (now : Int)
    (h : st.data = []) :
    ((MatchResultsCSV.audit_data_quality st.data).status = Status.not_available
      ∧ (MatchResultsCSV.audit_data_quality st.data).issues ≠ [])
    ∧ MatchResultsCSV.check_timestamps st.data
      = Except.ok { status := Status.not_available
                    issues := ["No data loaded"]
                    timestamp_format := none
                    temporal_ordering := none }
    ∧ ((MatchResultsCSV.detect_leakage now st.data).status = Status.not_available
      ∧ (MatchResultsCSV.detect_leakage now st.data).issues ≠ [])
    ∧ ((OddsCSV.audit_data_quality st.data).status = Status.not_available
      ∧ (OddsCSV.audit_data_quality st.data).issues ≠ [])
    ∧ ((OddsCSV.check_timestamps st.data).status = Status.not_available
      ∧ (OddsCSV.check_timestamps st.data).issues ≠ [])
    ∧ OddsCSV.detect_leakage st.data
      = Except.ok { status := Status.not_available
                    issues := ["No data loaded"]
                    post_match_odds := []
                    late_snapshots := [] }
    ∧ (truthy st.csv_path = false →
        (LocalCSV.check_availability st).status = Status.not_available
        ∧ (LocalCSV.check_availability st).issues ≠ [])
    ∧ (truthy st.csv_path = true → st.file_exists = false →
        (LocalCSV.check_availability st).status = Status.not_available
        ∧ (LocalCSV.check_availability st).issues ≠ [])
    ∧ (truthy st.csv_path = true → st.file_exists = true →
        (LocalCSV.check_availability st).status = Status.pass
        ∧ (LocalCSV.check_availability st).issues = []) := by
  rw [h]
  refine ⟨by decide, by decide, ?_, by decide, by decide, by decide, ?_, ?_, ?_⟩
  · simp [MatchResultsCSV.detect_leakage]
  · intro hp
    simp [LocalCSV.check_availability, hp]
  · intro hp hf
    simp [LocalCSV.check_availability, hp, hf]
  · intro hp hf
    simp [LocalCSV.check_availability, hp, hf]

/-- Witness for C4 (amended): a connector constructed with no CSV path has
an empty record set and its data-quality check reports NOT_AVAILABLE with
an issue. -/
theorem empty_dataset_safety_witness :
    (MatchResultsCSV.audit_data_quality NoPathState.data).status = Status.not_available
    ∧ (MatchResultsCSV.audit_data_quality NoPathState.data).issues ≠ [] :=
  (empty_dataset_safety NoPathState 0 rfl).1

/-- Claim C9: in both connectors' data-quality checks, if the very first
inspected record is missing any required field, the check returns
immediately with status FAIL and a single issue naming the missing fields,
and the subsequent sub-checks (completeness, duplicates, odds validity) are
neither performed nor included in the result. -/
theorem quality_short_circuit (r0 s0 : Row) (rs ss : List Row)
    (hmr : MatchResultsCSV.required_fields.filter (fun f => !rowHas r0 f) ≠ [])
    (ho : OddsCSV.required_fields.filter (fun f => !rowHas s0 f) ≠ []) :
    ((MatchResultsCSV.audit_data_quality (r0 :: rs)).status = Status.fail
     ∧ (MatchResultsCSV.audit_data_quality (r0 :: rs)).issues
        = ["Missing required fields: " ++ String.intercalate ", "
            (MatchResultsCSV.required_fields.filter (fun f => !rowHas r0 f))]
     ∧ (MatchResultsCSV.audit_data_quality (r0 :: rs)).completeness = none
     ∧ (MatchResultsCSV.audit_data_quality (r0 :: rs)).duplicates = none)
    ∧ ((OddsCSV.audit_data_quality (s0 :: ss)).status = Status.fail
     ∧ (OddsCSV.audit_data_quality (s0 :: ss)).issues
        = ["Missing required fields: " ++ String.intercalate ", "
            (OddsCSV.required_fields.filter (fun f => !rowHas s0 f))]
     ∧ (OddsCSV.audit_data_quality (s0 :: ss)).completeness = none
     ∧ (OddsCSV.audit_data_quality (s0 :: ss)).odds_validity = none) := by
  have hmr' : (MatchResultsCSV.required_fields.filter (fun f => !rowHas r0 f)).isEmpty
      = false := by
    simpa [List.isEmpty_iff] using hmr
  have ho' : (OddsCSV.required_fields.filter (fun f => !rowHas s0 f)).isEmpty = false := by
    simpa [List.isEmpty_iff] using ho
  constructor
  · simp [MatchResultsCSV.audit_data_quality, hmr']
  · simp [OddsCSV.audit_data_quality, ho']

/-- Witness for C9: on a record set whose first row carries only
`match_id`, both data-quality checks fail immediately. -/
theorem quality_short_circuit_witness :
    (MatchResultsCSV.audit_data_quality [OnlyIdRow]).status = Status.fail
    ∧ (OddsCSV.audit_data_quality [OnlyIdRow]).status = Status.fail :=
  ⟨(quality_short_circuit OnlyIdRow OnlyIdRow [] [] (by decide) (by decide)).1.1,
   (quality_short_circuit OnlyIdRow OnlyIdRow [] [] (by decide) (by decide)).2.1⟩

/-- The `critical_issues` accumulator of the summary loop, unrolled over
the remaining sources. -/
lemma summary_foldl_critical (rs : List (String × Audit.SourceResult)) :
    ∀ acc : Audit.Summary,
      (rs.foldl Audit.summaryStep acc).critical_issues
        = acc.critical_issues ++ rs.flatMap (fun e =>
            if e.2.overall_status = Status.fail then Audit.criticalOf e.1 e.2 else []) := by
  induction rs with
  | nil => intro acc; simp
  | cons e t ih =>
      intro acc
      rw [List.foldl_cons, ih]
      cases hst : e.2.overall_status <;>
        simp [Audit.summaryStep, hst, List.append_assoc]

/-- The `all_issues` accumulator of the summary loop, unrolled over the
remaining sources. -/
lemma summary_foldl_all (rs : List (String × Audit.SourceResult)) :
    ∀ acc : Audit.Summary,
      (rs.foldl Audit.summaryStep acc).all_issues
        = acc.all_issues ++ rs.flatMap (fun e => Audit.allOf e.1 e.2) := by
  induction rs with
  | nil => intro acc; simp
  | cons e t ih =>
      intro acc
      rw [List.foldl_cons, ih]
      cases hst : e.2.overall_status <;>
        simp [Audit.summaryStep, hst, List.append_assoc]

/-- The `run_audit` connector loop, unrolled: it keeps exactly the
non-skipped connectors, in registration order. -/
lemma run_foldl (sel : Option (List String)) (cs : List Audit.Connector) :
    ∀ acc : List String × List (String × Audit.SourceResult),
      cs.foldl (Audit.runStep sel) acc
        = (acc.1 ++ (cs.filter (fun c => !Audit.skipConn sel c.source_name)).map
              Audit.Connector.source_name,
           acc.2 ++ (cs.filter (fun c => !Audit.skipConn sel c.source_name)).map
              (fun c => (c.source_name, c.full_audit))) := by
  induction cs with
  | nil => intro acc; simp
  | cons c t ih =>
      intro acc
      rw [List.foldl_cons, ih]
      cases hsk : Audit.skipConn sel c.source_name <;>
        simp [Audit.runStep, hsk, List.append_assoc]

/-- Claim C6: `critical_issues` is exactly the concatenation, over sources
in iteration order, of every issue of every one of the four checks of each
source whose overall status is FAIL, prefixed with the source name; sources
with any other overall status contribute nothing, and issue-less checks of
a failing source contribute nothing. -/
theorem critical_issues_only_failing (rs : List (String × Audit.SourceResult)) :
    (Audit.generate_summary rs).critical_issues
      = rs.flatMap (fun e =>
          if e.2.overall_status = Status.fail then Audit.criticalOf e.1 e.2 else []) := by
  simpa [Audit.generate_summary] using summary_foldl_critical rs _

/-- Claim C7: `all_issues` holds exactly one `source.check_type`-prefixed
entry per issue of every check of every source regardless of status, and
both `all_issues` and `critical_issues` are ordered by source-iteration
order, then the fixed check-type order (availability, data_quality,
timestamps, leakage_check), then issue order — the lists are literal
concatenations in that order, with no sorting. -/
theorem all_issues_flat_ordered (rs : List (String × Audit.SourceResult)) :
    (Audit.generate_summary rs).all_issues
      = rs.flatMap (fun e => Audit.allOf e.1 e.2)
    ∧ (Audit.generate_summary rs).critical_issues
      = rs.flatMap (fun e =>
          if e.2.overall_status = Status.fail then Audit.criticalOf e.1 e.2 else []) :=
  ⟨by simpa [Audit.generate_summary] using summary_foldl_all rs _,
   by simpa [Audit.generate_summary] using summary_foldl_critical rs _⟩

/-- Claim C8: with a non-empty selection, exactly the connectors whose name
is in the selection are audited and included in the results mapping, in
registration order; a selection matching no connector yields zero audited
sources and an empty results mapping, with no error. -/
theorem selection_filtering (cs : List Audit.Connector) (sel : List String)
    (hne : sel ≠ []) :
    (Audit.run_audit cs (some sel)).connectors_audited
      = (cs.filter (fun c => sel.contains c.source_name)).map Audit.Connector.source_name
    ∧ (Audit.run_audit cs (some sel)).results
      = (cs.filter (fun c => sel.contains c.source_name)).map
          (fun c => (c.source_name, c.full_audit))
    ∧ ((∀ c ∈ cs, c.source_name ∉ sel) →
        (Audit.run_audit cs (some sel)).connectors_audited = []
        ∧ (Audit.run_audit cs (some sel)).results = []) := by
  have hpred : (fun c : Audit.Connector => !Audit.skipConn (some sel) c.source_name)
      = (fun c : Audit.Connector => sel.contains c.source_name) := by
    funext c
    have : sel.isEmpty = false := by simpa [List.isEmpty_iff] using hne
    simp [Audit.skipConn, this]
  have h1 : (Audit.run_audit cs (some sel)).connectors_audited
      = (cs.filter (fun c => sel.contains c.source_name)).map
          Audit.Connector.source_name := by
    simp [Audit.run_audit, run_foldl, hpred]
  have h2 : (Audit.run_audit cs (some sel)).results
      = (cs.filter (fun c => sel.contains c.source_name)).map
          (fun c => (c.source_name, c.full_audit)) := by
    simp [Audit.run_audit, run_foldl, hpred]
  refine ⟨h1, h2, ?_⟩
  intro hnone
  have hfil : cs.filter (fun c => sel.contains c.source_name) = [] := by
    apply List.filter_eq_nil_iff.mpr
    intro c hc
    simpa using hnone c hc
  rw [h1, h2, hfil]
  simp

/-- Witness for C8: selecting only "pre_match_odds" among two registered
connectors audits exactly that one. -/
theorem selection_filtering_witness :
    (Audit.run_audit [connA, connB] (some ["pre_match_odds"])).connectors_audited
      = ["pre_match_odds"] := by
  have h := (selection_filtering [connA, connB] ["pre_match_odds"] (by decide)).1
  rw [h]
  decide

/-- Claim C10: running the audit with an empty selection list behaves
identically to running it with no selection at all — every registered
connector is audited and included in the results. -/
theorem empty_selection_audits_all (cs : List Audit.Connector) :
    Audit.run_audit cs (some []) = Audit.run_audit cs none
    ∧ (Audit.run_audit cs (some [])).connectors_audited
        = cs.map Audit.Connector.source_name
    ∧ (Audit.run_audit cs (some [])).results
        = cs.map (fun c => (c.source_name, c.full_audit)) := by
  have hstep : Audit.runStep (some ([] : List String)) = Audit.runStep none := by
    funext acc c
    simp [Audit.runStep, Audit.skipConn]
  refine ⟨?_, ?_, ?_⟩
  · simp [Audit.run_audit, hstep]
  · simp [Audit.run_audit, run_foldl, Audit.skipConn]
  · simp [Audit.run_audit, run_foldl, Audit.skipConn]

end CipherCourt
